import Mathlib

/-!
Verification of the merge-sort performance graphing script
(`baseline code/Python_Script_Graphs.py`).

The script embeds measured execution times, costs per GB and throughputs
for a baseline configuration and four optimized configurations
(1/2/4/8 threads) across three dataset sizes (1/2/4 GB), derives
speedups and cost-savings percentages by inline divisions, and writes
two figures (a comparison figure and a detailed trend figure) to fixed
output paths.

Python float literals and arithmetic are modelled over `ℚ` (all the
script's literals are short decimals, exactly representable).  Python's
`ZeroDivisionError`, raised by float division by zero, is modelled by a
fallible division `pydiv` returning `Except`, and the script's
straight-line execution is modelled as a step list `scriptSteps` whose
run `runScript` produces an observable event trace and an optional
error.  Console prints are abbreviated to their ASCII core (the script
prefixes them with emoji characters).
-/

namespace Graphs

-- Baseline (Unoptimized) - gcc -O0  (script lines 16-24)
@[simp] def baseline_1gb_time : ℚ := 42.3322
@[simp] def baseline_2gb_time : ℚ := 87.1689
@[simp] def baseline_4gb_time : ℚ := 180.9564
@[simp] def baseline_1gb_cost : ℚ := 0.00117589
@[simp] def baseline_2gb_cost : ℚ := 0.00121068
@[simp] def baseline_4gb_cost : ℚ := 0.00125664
@[simp] def baseline_1gb_throughput : ℚ := 0.0236
@[simp] def baseline_2gb_throughput : ℚ := 0.0229
@[simp] def baseline_4gb_throughput : ℚ := 0.0221

-- Optimized - 1 Thread  (script lines 27-35)
@[simp] def opt_1t_1gb_time : ℚ := 23.5175
@[simp] def opt_1t_2gb_time : ℚ := 49.2152
@[simp] def opt_1t_4gb_time : ℚ := 103.0593
@[simp] def opt_1t_1gb_cost : ℚ := 0.00065327
@[simp] def opt_1t_2gb_cost : ℚ := 0.00068354
@[simp] def opt_1t_4gb_cost : ℚ := 0.00071569
@[simp] def opt_1t_1gb_throughput : ℚ := 0.0425
@[simp] def opt_1t_2gb_throughput : ℚ := 0.0406
@[simp] def opt_1t_4gb_throughput : ℚ := 0.0388

-- Optimized - 2 Threads  (script lines 38-46)
@[simp] def opt_2t_1gb_time : ℚ := 13.3410
@[simp] def opt_2t_2gb_time : ℚ := 26.9396
@[simp] def opt_2t_4gb_time : ℚ := 56.4735
@[simp] def opt_2t_1gb_cost : ℚ := 0.00037058
@[simp] def opt_2t_2gb_cost : ℚ := 0.00037416
@[simp] def opt_2t_4gb_cost : ℚ := 0.00039218
@[simp] def opt_2t_1gb_throughput : ℚ := 0.0750
@[simp] def opt_2t_2gb_throughput : ℚ := 0.0742
@[simp] def opt_2t_4gb_throughput : ℚ := 0.0708

-- Optimized - 4 Threads  (script lines 49-57)
@[simp] def opt_4t_1gb_time : ℚ := 7.6848
@[simp] def opt_4t_2gb_time : ℚ := 19.3038
@[simp] def opt_4t_4gb_time : ℚ := 40.1050
@[simp] def opt_4t_1gb_cost : ℚ := 0.00021347
@[simp] def opt_4t_2gb_cost : ℚ := 0.00026811
@[simp] def opt_4t_4gb_cost : ℚ := 0.00027851
@[simp] def opt_4t_1gb_throughput : ℚ := 0.1301
@[simp] def opt_4t_2gb_throughput : ℚ := 0.1036
@[simp] def opt_4t_4gb_throughput : ℚ := 0.0997

-- Optimized - 8 Threads  (script lines 60-68)
@[simp] def opt_8t_1gb_time : ℚ := 7.8883
@[simp] def opt_8t_2gb_time : ℚ := 13.7052
@[simp] def opt_8t_4gb_time : ℚ := 28.5950
@[simp] def opt_8t_1gb_cost : ℚ := 0.00021912
@[simp] def opt_8t_2gb_cost : ℚ := 0.00019035
@[simp] def opt_8t_4gb_cost : ℚ := 0.00019858
@[simp] def opt_8t_1gb_throughput : ℚ := 0.1268
@[simp] def opt_8t_2gb_throughput : ℚ := 0.1459
@[simp] def opt_8t_4gb_throughput : ℚ := 0.1399

/-- Modelled from the spec: `compute_speedup(baseline_time, optimized_time)`
returns baseline_time / optimized_time.  The script inlines this
operation (lines 151-156 and 352-357). -/
def compute_speedup (baseline_time optimized_time : ℚ) : ℚ :=
  baseline_time / optimized_time

/-- Modelled from the spec: `compute_savings_pct(baseline_cost, optimized_cost)`
returns (baseline_cost − optimized_cost) / baseline_cost × 100.  The
script inlines this operation (lines 218-223). -/
def compute_savings_pct (baseline_cost optimized_cost : ℚ) : ℚ :=
  (baseline_cost - optimized_cost) / baseline_cost * 100

-- Derived lists exactly as the script builds them.
-- speedup_4t / speedup_8t: script lines 151-156.
def speedup_4t : List ℚ :=
  [baseline_1gb_time / opt_4t_1gb_time,
   baseline_2gb_time / opt_4t_2gb_time,
   baseline_4gb_time / opt_4t_4gb_time]

def speedup_8t : List ℚ :=
  [baseline_1gb_time / opt_8t_1gb_time,
   baseline_2gb_time / opt_8t_2gb_time,
   baseline_4gb_time / opt_8t_4gb_time]

-- savings_4t / savings_8t: script lines 218-223.
def savings_4t : List ℚ :=
  [(baseline_1gb_cost - opt_4t_1gb_cost) / baseline_1gb_cost * 100,
   (baseline_2gb_cost - opt_4t_2gb_cost) / baseline_2gb_cost * 100,
   (baseline_4gb_cost - opt_4t_4gb_cost) / baseline_4gb_cost * 100]

def savings_8t : List ℚ :=
  [(baseline_1gb_cost - opt_8t_1gb_cost) / baseline_1gb_cost * 100,
   (baseline_2gb_cost - opt_8t_2gb_cost) / baseline_2gb_cost * 100,
   (baseline_4gb_cost - opt_8t_4gb_cost) / baseline_4gb_cost * 100]

-- speedup_1t / speedup_2t: script lines 352-357 (computed after the
-- first figure has already been written at line 286).
def speedup_1t : List ℚ :=
  [baseline_1gb_time / opt_1t_1gb_time,
   baseline_2gb_time / opt_1t_2gb_time,
   baseline_4gb_time / opt_1t_4gb_time]

def speedup_2t : List ℚ :=
  [baseline_1gb_time / opt_2t_1gb_time,
   baseline_2gb_time / opt_2t_2gb_time,
   baseline_4gb_time / opt_2t_4gb_time]

/-- All 45 embedded measurement constants (script lines 16-68). -/
def allEmbeddedConstants : List ℚ :=
  [baseline_1gb_time, baseline_2gb_time, baseline_4gb_time,
   baseline_1gb_cost, baseline_2gb_cost, baseline_4gb_cost,
   baseline_1gb_throughput, baseline_2gb_throughput, baseline_4gb_throughput,
   opt_1t_1gb_time, opt_1t_2gb_time, opt_1t_4gb_time,
   opt_1t_1gb_cost, opt_1t_2gb_cost, opt_1t_4gb_cost,
   opt_1t_1gb_throughput, opt_1t_2gb_throughput, opt_1t_4gb_throughput,
   opt_2t_1gb_time, opt_2t_2gb_time, opt_2t_4gb_time,
   opt_2t_1gb_cost, opt_2t_2gb_cost, opt_2t_4gb_cost,
   opt_2t_1gb_throughput, opt_2t_2gb_throughput, opt_2t_4gb_throughput,
   opt_4t_1gb_time, opt_4t_2gb_time, opt_4t_4gb_time,
   opt_4t_1gb_cost, opt_4t_2gb_cost, opt_4t_4gb_cost,
   opt_4t_1gb_throughput, opt_4t_2gb_throughput, opt_4t_4gb_throughput,
   opt_8t_1gb_time, opt_8t_2gb_time, opt_8t_4gb_time,
   opt_8t_1gb_cost, opt_8t_2gb_cost, opt_8t_4gb_cost,
   opt_8t_1gb_throughput, opt_8t_2gb_throughput, opt_8t_4gb_throughput]

/-! ## Fallible-execution model

Python raises `ZeroDivisionError` on float division by zero.  The
spec's error taxonomy additionally names `InvalidMeasurement`
(non-positive time or cost, to be rejected before rendering); the
script contains no such validation, the constructor exists only so the
spec's claim about it can be stated. -/

/-- Errors a run can surface.  `zeroDivisionError` models Python's
exception on division by zero.  Modelled from the spec:
`invalidMeasurement` is the spec's `InvalidMeasurement` error
(non-positive time or cost, rejected before rendering); no code in the
repository raises it. -/
inductive PyError where
  | zeroDivisionError
  | invalidMeasurement
deriving DecidableEq

/-- Python float division: raises `ZeroDivisionError` on a zero
denominator, otherwise returns the exact quotient. -/
def pydiv (a b : ℚ) : Except PyError ℚ :=
  if b = 0 then .error .zeroDivisionError else .ok (a / b)

/-- Three divisions evaluated left to right, as in the script's
three-element list displays; the first zero denominator aborts. -/
def seqDiv3 (a1 b1 a2 b2 a3 b3 : ℚ) : Except PyError (List ℚ) :=
  match pydiv a1 b1 with
  | .error e => .error e
  | .ok x =>
    match pydiv a2 b2 with
    | .error e => .error e
    | .ok y =>
      match pydiv a3 b3 with
      | .error e => .error e
      | .ok z => .ok [x, y, z]

/-- The full measurement table the script loads at startup
(script lines 16-68), as an explicit input so runs on perturbed data
can be stated. -/
structure Measurements where
  baseline_1gb_time : ℚ
  baseline_2gb_time : ℚ
  baseline_4gb_time : ℚ
  baseline_1gb_cost : ℚ
  baseline_2gb_cost : ℚ
  baseline_4gb_cost : ℚ
  baseline_1gb_throughput : ℚ
  baseline_2gb_throughput : ℚ
  baseline_4gb_throughput : ℚ
  opt_1t_1gb_time : ℚ
  opt_1t_2gb_time : ℚ
  opt_1t_4gb_time : ℚ
  opt_1t_1gb_cost : ℚ
  opt_1t_2gb_cost : ℚ
  opt_1t_4gb_cost : ℚ
  opt_1t_1gb_throughput : ℚ
  opt_1t_2gb_throughput : ℚ
  opt_1t_4gb_throughput : ℚ
  opt_2t_1gb_time : ℚ
  opt_2t_2gb_time : ℚ
  opt_2t_4gb_time : ℚ
  opt_2t_1gb_cost : ℚ
  opt_2t_2gb_cost : ℚ
  opt_2t_4gb_cost : ℚ
  opt_2t_1gb_throughput : ℚ
  opt_2t_2gb_throughput : ℚ
  opt_2t_4gb_throughput : ℚ
  opt_4t_1gb_time : ℚ
  opt_4t_2gb_time : ℚ
  opt_4t_4gb_time : ℚ
  opt_4t_1gb_cost : ℚ
  opt_4t_2gb_cost : ℚ
  opt_4t_4gb_cost : ℚ
  opt_4t_1gb_throughput : ℚ
  opt_4t_2gb_throughput : ℚ
  opt_4t_4gb_throughput : ℚ
  opt_8t_1gb_time : ℚ
  opt_8t_2gb_time : ℚ
  opt_8t_4gb_time : ℚ
  opt_8t_1gb_cost : ℚ
  opt_8t_2gb_cost : ℚ
  opt_8t_4gb_cost : ℚ
  opt_8t_1gb_throughput : ℚ
  opt_8t_2gb_throughput : ℚ
  opt_8t_4gb_throughput : ℚ

/-- The table of constants actually embedded in the script. -/
def embeddedMeasurements : Measurements :=
  { baseline_1gb_time := baseline_1gb_time
    baseline_2gb_time := baseline_2gb_time
    baseline_4gb_time := baseline_4gb_time
    baseline_1gb_cost := baseline_1gb_cost
    baseline_2gb_cost := baseline_2gb_cost
    baseline_4gb_cost := baseline_4gb_cost
    baseline_1gb_throughput := baseline_1gb_throughput
    baseline_2gb_throughput := baseline_2gb_throughput
    baseline_4gb_throughput := baseline_4gb_throughput
    opt_1t_1gb_time := opt_1t_1gb_time
    opt_1t_2gb_time := opt_1t_2gb_time
    opt_1t_4gb_time := opt_1t_4gb_time
    opt_1t_1gb_cost := opt_1t_1gb_cost
    opt_1t_2gb_cost := opt_1t_2gb_cost
    opt_1t_4gb_cost := opt_1t_4gb_cost
    opt_1t_1gb_throughput := opt_1t_1gb_throughput
    opt_1t_2gb_throughput := opt_1t_2gb_throughput
    opt_1t_4gb_throughput := opt_1t_4gb_throughput
    opt_2t_1gb_time := opt_2t_1gb_time
    opt_2t_2gb_time := opt_2t_2gb_time
    opt_2t_4gb_time := opt_2t_4gb_time
    opt_2t_1gb_cost := opt_2t_1gb_cost
    opt_2t_2gb_cost := opt_2t_2gb_cost
    opt_2t_4gb_cost := opt_2t_4gb_cost
    opt_2t_1gb_throughput := opt_2t_1gb_throughput
    opt_2t_2gb_throughput := opt_2t_2gb_throughput
    opt_2t_4gb_throughput := opt_2t_4gb_throughput
    opt_4t_1gb_time := opt_4t_1gb_time
    opt_4t_2gb_time := opt_4t_2gb_time
    opt_4t_4gb_time := opt_4t_4gb_time
    opt_4t_1gb_cost := opt_4t_1gb_cost
    opt_4t_2gb_cost := opt_4t_2gb_cost
    opt_4t_4gb_cost := opt_4t_4gb_cost
    opt_4t_1gb_throughput := opt_4t_1gb_throughput
    opt_4t_2gb_throughput := opt_4t_2gb_throughput
    opt_4t_4gb_throughput := opt_4t_4gb_throughput
    opt_8t_1gb_time := opt_8t_1gb_time
    opt_8t_2gb_time := opt_8t_2gb_time
    opt_8t_4gb_time := opt_8t_4gb_time
    opt_8t_1gb_cost := opt_8t_1gb_cost
    opt_8t_2gb_cost := opt_8t_2gb_cost
    opt_8t_4gb_cost := opt_8t_4gb_cost
    opt_8t_1gb_throughput := opt_8t_1gb_throughput
    opt_8t_2gb_throughput := opt_8t_2gb_throughput
    opt_8t_4gb_throughput := opt_8t_4gb_throughput }

-- Parametric forms of the script's derived-metric computations, with
-- Python's division-by-zero behaviour made explicit.

/-- Script lines 151-153. -/
def speedup_4t_of (m : Measurements) : Except PyError (List ℚ) :=
  seqDiv3 m.baseline_1gb_time m.opt_4t_1gb_time
          m.baseline_2gb_time m.opt_4t_2gb_time
          m.baseline_4gb_time m.opt_4t_4gb_time

/-- Script lines 154-156. -/
def speedup_8t_of (m : Measurements) : Except PyError (List ℚ) :=
  seqDiv3 m.baseline_1gb_time m.opt_8t_1gb_time
          m.baseline_2gb_time m.opt_8t_2gb_time
          m.baseline_4gb_time m.opt_8t_4gb_time

/-- Script lines 218-220: (baseline − opt) / baseline, then × 100. -/
def savings_4t_of (m : Measurements) : Except PyError (List ℚ) :=
  match seqDiv3 (m.baseline_1gb_cost - m.opt_4t_1gb_cost) m.baseline_1gb_cost
                (m.baseline_2gb_cost - m.opt_4t_2gb_cost) m.baseline_2gb_cost
                (m.baseline_4gb_cost - m.opt_4t_4gb_cost) m.baseline_4gb_cost with
  | .error e => .error e
  | .ok l => .ok (l.map (· * 100))

/-- Script lines 221-223. -/
def savings_8t_of (m : Measurements) : Except PyError (List ℚ) :=
  match seqDiv3 (m.baseline_1gb_cost - m.opt_8t_1gb_cost) m.baseline_1gb_cost
                (m.baseline_2gb_cost - m.opt_8t_2gb_cost) m.baseline_2gb_cost
                (m.baseline_4gb_cost - m.opt_8t_4gb_cost) m.baseline_4gb_cost with
  | .error e => .error e
  | .ok l => .ok (l.map (· * 100))

/-- Script line 261: the summary table's throughput gain,
opt_4t_1gb_throughput / baseline_1gb_throughput. -/
def throughput_gain_of (m : Measurements) : Except PyError (List ℚ) :=
  match pydiv m.opt_4t_1gb_throughput m.baseline_1gb_throughput with
  | .error e => .error e
  | .ok r => .ok [r]

/-- Script lines 352-354. -/
def speedup_1t_of (m : Measurements) : Except PyError (List ℚ) :=
  seqDiv3 m.baseline_1gb_time m.opt_1t_1gb_time
          m.baseline_2gb_time m.opt_1t_2gb_time
          m.baseline_4gb_time m.opt_1t_4gb_time

/-- Script lines 355-357. -/
def speedup_2t_of (m : Measurements) : Except PyError (List ℚ) :=
  seqDiv3 m.baseline_1gb_time m.opt_2t_1gb_time
          m.baseline_2gb_time m.opt_2t_2gb_time
          m.baseline_4gb_time m.opt_2t_4gb_time

def comparisonFigPath : String :=
  "/mnt/user-data/outputs/baseline_vs_optimized_comparison.png"

def detailedFigPath : String :=
  "/mnt/user-data/outputs/detailed_performance_comparison.png"

/-- Observable events of a run.  `saveFig` writes an image file (the
only persistent output); `consolePrint` is a console status line. -/
inductive Event where
  | loadConstants
  | computeDerived (name : String)
  | saveFig (path : String)
  | consolePrint (msg : String)
deriving DecidableEq

def isSaveFig : Event → Bool
  | .saveFig _ => true
  | _ => false

def isCompute : Event → Bool
  | .computeDerived _ => true
  | _ => false

/-- One straight-line step of the script: a derived-metric computation
(which may raise), a figure write, or a console print. -/
inductive Step where
  | compute (name : String) (result : Except PyError (List ℚ))
  | save (path : String)
  | printMsg (msg : String)

/-- The script's straight-line step sequence, in source order:
derived metrics for the comparison figure (lines 151-156, 218-223,
261), the first `savefig` (line 286) and its status print (line 288),
then the trend figure's extra speedups (lines 352-357), the second
`savefig` (line 412) and the closing prints (lines 414-423, collapsed
to their two distinct messages).  The raw cost lists at lines 389-390
involve no computation and produce no event. -/
def scriptSteps (m : Measurements) : List Step :=
  [ .compute "speedup_4t" (speedup_4t_of m),
    .compute "speedup_8t" (speedup_8t_of m),
    .compute "savings_4t" (savings_4t_of m),
    .compute "savings_8t" (savings_8t_of m),
    .compute "throughput_gain" (throughput_gain_of m),
    .save comparisonFigPath,
    .printMsg "NEW Graph saved: baseline_vs_optimized_comparison.png",
    .compute "speedup_1t" (speedup_1t_of m),
    .compute "speedup_2t" (speedup_2t_of m),
    .save detailedFigPath,
    .printMsg "NEW Graph saved: detailed_performance_comparison.png",
    .printMsg "ALL COMPARISON GRAPHS GENERATED SUCCESSFULLY!" ]

/-- Run steps in order; a failing computation aborts the run at that
point (its event is not emitted, later steps do not run), exactly as an
uncaught Python exception would. -/
def runSteps : List Step → List Event × Option PyError
  | [] => ([], none)
  | .compute n r :: rest =>
    match r with
    | .error e => ([], some e)
    | .ok _ =>
      let (t, e) := runSteps rest
      (.computeDerived n :: t, e)
  | .save p :: rest =>
    let (t, e) := runSteps rest
    (.saveFig p :: t, e)
  | .printMsg s :: rest =>
    let (t, e) := runSteps rest
    (.consolePrint s :: t, e)

/-- Full run of the script on a measurement table: the constants are
loaded, then the straight-line steps execute. -/
def runScript (m : Measurements) : List Event × Option PyError :=
  let (t, e) := runSteps (scriptSteps m)
  (Event.loadConstants :: t, e)

/-- The event trace of the script on its embedded data. -/
def embeddedTrace : List Event :=
  [ .loadConstants,
    .computeDerived "speedup_4t",
    .computeDerived "speedup_8t",
    .computeDerived "savings_4t",
    .computeDerived "savings_8t",
    .computeDerived "throughput_gain",
    .saveFig comparisonFigPath,
    .consolePrint "NEW Graph saved: baseline_vs_optimized_comparison.png",
    .computeDerived "speedup_1t",
    .computeDerived "speedup_2t",
    .saveFig detailedFigPath,
    .consolePrint "NEW Graph saved: detailed_performance_comparison.png",
    .consolePrint "ALL COMPARISON GRAPHS GENERATED SUCCESSFULLY!" ]

/-- The embedded table with the 4-thread 1 GB time zeroed out: a
measurement set containing a zero time value. -/
def zeroTimeMeasurements : Measurements :=
  { embeddedMeasurements with opt_4t_1gb_time := 0 }

/-! ## Shared evaluation lemmas -/

theorem runScript_embedded : runScript embeddedMeasurements = (embeddedTrace, none) := by
  norm_num [runScript, runSteps, scriptSteps, speedup_4t_of, speedup_8t_of,
    speedup_1t_of, speedup_2t_of, savings_4t_of, savings_8t_of,
    throughput_gain_of, seqDiv3, pydiv, embeddedMeasurements, embeddedTrace]

theorem runScript_zeroTime :
    runScript zeroTimeMeasurements = ([Event.loadConstants], some PyError.zeroDivisionError) := by
  norm_num [runScript, runSteps, scriptSteps, speedup_4t_of, seqDiv3, pydiv,
    zeroTimeMeasurements, embeddedMeasurements]

/-! ## Claims -/

/-- Claim C1: `compute_speedup baseline_time optimized_time` returns
baseline_time / optimized_time for every pair of inputs with nonzero
optimized time, and each of the script's speedup lists (4, 8, 1 and 2
threads, one entry per dataset size) is exactly the corresponding
baseline time divided by that configuration's time. -/
theorem speedup_matches_spec_formula :
    (∀ b t : ℚ, t ≠ 0 → compute_speedup b t = b / t) ∧
    speedup_4t = [compute_speedup baseline_1gb_time opt_4t_1gb_time,
                  compute_speedup baseline_2gb_time opt_4t_2gb_time,
                  compute_speedup baseline_4gb_time opt_4t_4gb_time] ∧
    speedup_8t = [compute_speedup baseline_1gb_time opt_8t_1gb_time,
                  compute_speedup baseline_2gb_time opt_8t_2gb_time,
                  compute_speedup baseline_4gb_time opt_8t_4gb_time] ∧
    speedup_1t = [compute_speedup baseline_1gb_time opt_1t_1gb_time,
                  compute_speedup baseline_2gb_time opt_1t_2gb_time,
                  compute_speedup baseline_4gb_time opt_1t_4gb_time] ∧
    speedup_2t = [compute_speedup baseline_1gb_time opt_2t_1gb_time,
                  compute_speedup baseline_2gb_time opt_2t_2gb_time,
                  compute_speedup baseline_4gb_time opt_2t_4gb_time] :=
  ⟨fun _ _ _ => rfl, rfl, rfl, rfl, rfl⟩

theorem speedup_matches_spec_formula_witness :
    compute_speedup 10 4 = (10 : ℚ) / 4 :=
  speedup_matches_spec_formula.1 10 4 (by norm_num)

/-- Claim C2: `compute_savings_pct baseline_cost optimized_cost` returns
(baseline_cost − optimized_cost) / baseline_cost × 100 for every pair of
inputs with nonzero baseline cost, and the script's cost-savings lists
(4 and 8 threads, one entry per dataset size) are computed by exactly
this formula. -/
theorem savings_matches_spec_formula :
    (∀ b c : ℚ, b ≠ 0 → compute_savings_pct b c = (b - c) / b * 100) ∧
    savings_4t = [compute_savings_pct baseline_1gb_cost opt_4t_1gb_cost,
                  compute_savings_pct baseline_2gb_cost opt_4t_2gb_cost,
                  compute_savings_pct baseline_4gb_cost opt_4t_4gb_cost] ∧
    savings_8t = [compute_savings_pct baseline_1gb_cost opt_8t_1gb_cost,
                  compute_savings_pct baseline_2gb_cost opt_8t_2gb_cost,
                  compute_savings_pct baseline_4gb_cost opt_8t_4gb_cost] :=
  ⟨fun _ _ _ => rfl, rfl, rfl⟩

theorem savings_matches_spec_formula_witness :
    compute_savings_pct 4 3 = ((4 : ℚ) - 3) / 4 * 100 :=
  savings_matches_spec_formula.1 4 3 (by norm_num)

/-- Claim C3 (counterexample): on the embedded data with the 4-thread
1 GB time set to zero — a measurement set containing a zero time value —
the run does not raise the spec's `InvalidMeasurement`: no validation
exists, and the speedup division itself raises `ZeroDivisionError`. -/
theorem zero_time_not_invalid_measurement :
    ¬ (runScript zeroTimeMeasurements).2 = some PyError.invalidMeasurement := by
  rw [runScript_zeroTime]
  simp

/-- Claim C3 (amended): rendering with a measurement set whose 4-thread
1 GB time is zero aborts with `ZeroDivisionError` raised by the speedup
division itself — there is no `InvalidMeasurement` validation and the
measurement set is not rejected before rendering — and the run aborts
before any figure is written, so no division-by-zero artifact (such as
an infinite speedup) appears in any output file. -/
theorem zero_time_aborts_with_zero_division :
    (runScript zeroTimeMeasurements).2 = some PyError.zeroDivisionError ∧
    (runScript zeroTimeMeasurements).1.filter isSaveFig = [] := by
  rw [runScript_zeroTime]
  exact ⟨rfl, rfl⟩

/-- Claim C4: `compute_speedup` is monotonically consistent — for every
positive baseline time b and positive optimized times t1 < t2, the
speedup at t1 is strictly greater than the speedup at t2. -/
theorem compute_speedup_strict_antitone (b t1 t2 : ℚ) (hb : 0 < b)
    (h1 : 0 < t1) (h2 : 0 < t2) (hlt : t1 < t2) :
    compute_speedup b t2 < compute_speedup b t1 :=
  div_lt_div_of_pos_left hb h1 hlt

theorem compute_speedup_strict_antitone_witness :
    compute_speedup 6 3 < compute_speedup 6 2 :=
  compute_speedup_strict_antitone 6 2 3 (by norm_num) (by norm_num)
    (by norm_num) (by norm_num)

/-- Claim C5: for the embedded baseline 1 GB time 42.3322 and the
4-thread 1 GB time 7.6848, the computed speedup (the first entry of
`speedup_4t`) equals 42.3322 / 7.6848, which is within 0.01 of 5.51. -/
theorem speedup_4t_1gb_value :
    speedup_4t.headI = 42.3322 / 7.6848 ∧ |speedup_4t.headI - 5.51| ≤ 0.01 := by
  constructor
  · rfl
  · rw [abs_le]
    norm_num [speedup_4t, List.headI]

/-- Claim C6: for the embedded baseline 1 GB cost 0.00117589 and the
8-thread 1 GB cost 0.00021912, the computed savings percentage (the
first entry of `savings_8t`) equals
(0.00117589 − 0.00021912) / 0.00117589 × 100, which is within 0.05 of
81.37. -/
theorem savings_8t_1gb_value :
    savings_8t.headI = (0.00117589 - 0.00021912) / 0.00117589 * 100 ∧
    |savings_8t.headI - 81.37| ≤ 0.05 := by
  constructor
  · rfl
  · rw [abs_le]
    norm_num [savings_8t, List.headI]

/-- Claim C7 (counterexample): it is not the case that every
derived-value computation precedes the first figure write: after the
first `saveFig` event of the embedded run's trace, further
`computeDerived` events occur (the 1-thread and 2-thread speedups,
script lines 352-357, after the write at line 286). -/
theorem derived_after_first_save :
    ¬ ((((runScript embeddedMeasurements).1.dropWhile fun e => !(isSaveFig e)).filter
        fun e => isCompute e) = []) := by
  rw [runScript_embedded]
  simp [embeddedTrace, isSaveFig, isCompute]

/-- Claim C7 (amended): the run on the embedded data produces exactly
the straight-line trace `embeddedTrace` with no error: exactly two
figure files are written, the comparison figure strictly before the
trend figure, and console prints are the only other observable effects;
the derived values used by the comparison figure (4/8-thread speedups,
savings, throughput gain) are computed before the first write, while
the 1-thread and 2-thread speedups are computed between the two
writes. -/
theorem script_trace_order :
    runScript embeddedMeasurements = (embeddedTrace, none) ∧
    embeddedTrace.filter isSaveFig =
      [Event.saveFig comparisonFigPath, Event.saveFig detailedFigPath] ∧
    (embeddedTrace.takeWhile fun e => !(isSaveFig e)).filter (fun e => isCompute e) =
      [Event.computeDerived "speedup_4t", Event.computeDerived "speedup_8t",
       Event.computeDerived "savings_4t", Event.computeDerived "savings_8t",
       Event.computeDerived "throughput_gain"] ∧
    (embeddedTrace.dropWhile fun e => !(isSaveFig e)).filter (fun e => isCompute e) =
      [Event.computeDerived "speedup_1t", Event.computeDerived "speedup_2t"] := by
  refine ⟨runScript_embedded, ?_, ?_, ?_⟩ <;>
    simp [embeddedTrace, isSaveFig, isCompute]

/-- Claim C8: every embedded time, cost and throughput constant is
strictly positive, so every division the script performs has a nonzero
denominator: the run on the embedded data completes without a
division-by-zero error. -/
theorem embedded_constants_positive_no_division_error :
    allEmbeddedConstants.Forall (fun q => 0 < q) ∧
    (runScript embeddedMeasurements).2 = none := by
  refine ⟨?_, by rw [runScript_embedded]⟩
  norm_num [allEmbeddedConstants, List.Forall]

/-- Claim C9: speedup is not monotone in thread count on the embedded
data — the 8-thread 1 GB time (7.8883) exceeds the 4-thread 1 GB time
(7.6848), so the 8-thread speedup at 1 GB is strictly below the
4-thread speedup at 1 GB. -/
theorem speedup_not_monotone_in_threads :
    opt_4t_1gb_time < opt_8t_1gb_time ∧ speedup_8t.headI < speedup_4t.headI := by
  norm_num [speedup_4t, speedup_8t, List.headI]

/-- Claim C10: for every optimized configuration (1, 2, 4, 8 threads)
and every dataset size (1, 2, 4 GB) in the embedded data, the computed
speedup is strictly greater than 1 and the computed cost-savings
percentage is strictly greater than 0. -/
theorem all_optimized_beat_baseline :
    1 < compute_speedup baseline_1gb_time opt_1t_1gb_time ∧
    1 < compute_speedup baseline_2gb_time opt_1t_2gb_time ∧
    1 < compute_speedup baseline_4gb_time opt_1t_4gb_time ∧
    1 < compute_speedup baseline_1gb_time opt_2t_1gb_time ∧
    1 < compute_speedup baseline_2gb_time opt_2t_2gb_time ∧
    1 < compute_speedup baseline_4gb_time opt_2t_4gb_time ∧
    1 < compute_speedup baseline_1gb_time opt_4t_1gb_time ∧
    1 < compute_speedup baseline_2gb_time opt_4t_2gb_time ∧
    1 < compute_speedup baseline_4gb_time opt_4t_4gb_time ∧
    1 < compute_speedup baseline_1gb_time opt_8t_1gb_time ∧
    1 < compute_speedup baseline_2gb_time opt_8t_2gb_time ∧
    1 < compute_speedup baseline_4gb_time opt_8t_4gb_time ∧
    0 < compute_savings_pct baseline_1gb_cost opt_1t_1gb_cost ∧
    0 < compute_savings_pct baseline_2gb_cost opt_1t_2gb_cost ∧
    0 < compute_savings_pct baseline_4gb_cost opt_1t_4gb_cost ∧
    0 < compute_savings_pct baseline_1gb_cost opt_2t_1gb_cost ∧
    0 < compute_savings_pct baseline_2gb_cost opt_2t_2gb_cost ∧
    0 < compute_savings_pct baseline_4gb_cost opt_2t_4gb_cost ∧
    0 < compute_savings_pct baseline_1gb_cost opt_4t_1gb_cost ∧
    0 < compute_savings_pct baseline_2gb_cost opt_4t_2gb_cost ∧
    0 < compute_savings_pct baseline_4gb_cost opt_4t_4gb_cost ∧
    0 < compute_savings_pct baseline_1gb_cost opt_8t_1gb_cost ∧
    0 < compute_savings_pct baseline_2gb_cost opt_8t_2gb_cost ∧
    0 < compute_savings_pct baseline_4gb_cost opt_8t_4gb_cost := by
  norm_num [compute_speedup, compute_savings_pct]

end Graphs
